import Mathlib

/-!
Shallow embedding of the StudyStreak scheduling and habit-tracking core
(`calendar_integration.py`, `dashboard.py`).

Conventions:
* Timestamps are natural numbers counting minutes since the Unix epoch
  (1970-01-01 00:00, a Thursday, so the Python `datetime.weekday()` value — Monday = 0 —
  is `(t / 1440 + 3) % 7`).  All datetimes the scheduler constructs have
  minute/second/microsecond zeroed, so minute granularity is exact.
* Python code that can raise is embedded as `Option`-valued (`none` = the call
  raises); library calls whose failure the source swallows with `try/except`
  become `Option`/`Except` parameters.
* Rational numbers stand in for Python floats; all scores involved are small
  exact decimal fractions.
-/

/-! ## Habit tracker (`dashboard.py`, class `HabitTracker`) -/

/-- `HabitTracker.habit_formation_days` (dashboard.py line 288). -/
def habit_formation_days : Nat := 70

/-- The dict returned by `HabitTracker.track_habit_progress`.  Python returns a
dict; `milestone_reached` is `Option Bool` because the early return for an
empty session list omits that key (`none` = key absent). -/
structure HabitProgress where
  days_completed : Nat
  days_remaining : Nat
  progress_percentage : ℚ
  current_streak : Nat
  is_on_track : Bool
  milestone_reached : Option Bool
deriving DecidableEq, Repr

/-- One step of the loop in `track_habit_progress` (dashboard.py lines 319-326).
State is `(current_streak, last_date)`; a session is `(session_date, completed)`
with dates as day numbers (the source applies `.date()` before comparing, and
`last_date + timedelta(days=1)` is `l + 1`). -/
def habitStep : Nat × Option Nat → Nat × Bool → Nat × Option Nat
  | (streak, lastDate), (sessionDate, completed) =>
    if completed then
      match lastDate with
      | none => (streak + 1, some sessionDate)
      | some l =>
        if sessionDate = l + 1 then (streak + 1, some sessionDate)
        else if sessionDate ≠ l then (1, some sessionDate)
        else (streak, some sessionDate)
    else (streak, lastDate)

/-- `HabitTracker.track_habit_progress` (dashboard.py lines 290-339), on the
ascending `(date, completed)` session log read from the database.  The empty
log takes the early return of lines 306-313, whose dict has no
`milestone_reached` key. -/
def track_habit_progress (sessions : List (Nat × Bool)) : HabitProgress :=
  match sessions with
  | [] =>
    { days_completed := 0
      days_remaining := habit_formation_days
      progress_percentage := 0
      current_streak := 0
      is_on_track := false
      milestone_reached := none }
  | _ =>
    let res := sessions.foldl habitStep (0, none)
    let currentStreak := res.1
    let daysCompleted := min currentStreak habit_formation_days
    -- `max(0, 70 - days_completed)`: `days_completed ≤ 70`, so Nat subtraction agrees.
    let daysRemaining := habit_formation_days - daysCompleted
    { days_completed := daysCompleted
      days_remaining := daysRemaining
      progress_percentage := (daysCompleted : ℚ) / (habit_formation_days : ℚ) * 100
      current_streak := currentStreak
      is_on_track := decide (5 ≤ currentStreak)
      milestone_reached := some (decide (habit_formation_days ≤ daysCompleted)) }

/-- Reward message for a 7-day streak (dashboard.py line 348). -/
def reward7 : String := "🔥 7-day streak! You\u0027re building momentum!"

/-- Reward message for a 21-day streak (dashboard.py line 351). -/
def reward21 : String := "🌟 21-day streak! This is becoming a habit!"

/-- Reward message for a 30-day streak (dashboard.py line 354). -/
def reward30 : String := "💪 30-day streak! You\u0027re unstoppable!"

/-- Reward message for 50 completed days (dashboard.py line 357). -/
def reward50 : String := "🎯 50 days! You\u0027re almost at the finish line!"

/-- Reward message for the habit-formation milestone (dashboard.py line 360). -/
def rewardHabit : String := "🏆 Congratulations! You\u0027ve formed a lasting habit!"

/-- `HabitTracker.get_milestone_rewards` (dashboard.py lines 343-362).  Reading
`progress["milestone_reached"]` raises `KeyError` when the key is absent, hence
the `Option` result. -/
def get_milestone_rewards (progress : HabitProgress) : Option (List String) :=
  let rewards : List String := []
  let rewards := if 7 ≤ progress.current_streak then rewards ++ [reward7] else rewards
  let rewards := if 21 ≤ progress.current_streak then rewards ++ [reward21] else rewards
  let rewards := if 30 ≤ progress.current_streak then rewards ++ [reward30] else rewards
  let rewards := if 50 ≤ progress.days_completed then rewards ++ [reward50] else rewards
  match progress.milestone_reached with
  | none => none
  | some m => some (if m then rewards ++ [rewardHabit] else rewards)

/-! ## Smart scheduler (`calendar_integration.py`, class `SmartScheduler`) -/

/-- The preference keys `SmartScheduler` reads with `dict.get`; `none` means the
key is absent and the documented default applies.  (`ical_urls` feeds the
aggregation stage, modelled separately below.) -/
structure UserPreferences where
  preferred_study_hours : Option (List Nat)
  preferred_days : Option (List Nat)
  morning_preference : Option ℚ
  midday_preference : Option ℚ
  afternoon_preference : Option ℚ
  evening_preference : Option ℚ
  subjects : Option (List String)
deriving DecidableEq, Repr

/-- A preferences dict with none of the optional keys set. -/
def emptyPrefs : UserPreferences :=
  { preferred_study_hours := none
    preferred_days := none
    morning_preference := none
    midday_preference := none
    afternoon_preference := none
    evening_preference := none
    subjects := none }

/-- `preferences.get("preferred_study_hours", [9, 14, 19])`. -/
def preferredHoursOf (prefs : UserPreferences) : List Nat :=
  prefs.preferred_study_hours.getD [9, 14, 19]

/-- `preferences.get("preferred_days", [0, 1, 2, 3, 4])`. -/
def preferredDaysOf (prefs : UserPreferences) : List Nat :=
  prefs.preferred_days.getD [0, 1, 2, 3, 4]

/-- Python `datetime.weekday()` (Monday = 0) of a minute timestamp; minute 0 is
1970-01-01, a Thursday (weekday 3). -/
def weekday (t : Nat) : Nat := (t / 1440 + 3) % 7

/-- `dt.replace(hour=h, minute=0, second=0, microsecond=0)` on a minute
timestamp.  `datetime.replace` raises `ValueError` unless `0 ≤ h ≤ 23`,
hence the `Option`. -/
def replaceHour (t h : Nat) : Option Nat :=
  if h ≤ 23 then some (t / 1440 * 1440 + h * 60) else none

/-- Python `t.hour` of a minute timestamp. -/
def hourOf (t : Nat) : Nat := t % 1440 / 60

/-- The time-of-day base weight of `SmartScheduler._calculate_confidence_score`
(calendar_integration.py lines 250-258), selected by the hour of the slot. -/
def bucketWeight (prefs : UserPreferences) (hour : Nat) : ℚ :=
  if 6 ≤ hour ∧ hour ≤ 9 then prefs.morning_preference.getD (8 / 10)
  else if 10 ≤ hour ∧ hour ≤ 14 then prefs.midday_preference.getD (6 / 10)
  else if 15 ≤ hour ∧ hour ≤ 18 then prefs.afternoon_preference.getD (7 / 10)
  else prefs.evening_preference.getD (5 / 10)

/-- `SmartScheduler._calculate_confidence_score` (calendar_integration.py
lines 245-268). -/
def calculate_confidence_score (slotTime : Nat) (prefs : UserPreferences) : ℚ :=
  let score : ℚ := 0
  let score := score + bucketWeight prefs (hourOf slotTime)
  let score := if weekday slotTime ∈ preferredDaysOf prefs then score + 2 / 10 else score
  min score 1

/-- `SmartScheduler._suggest_subject` (calendar_integration.py lines 270-276).
`subjects[day_index % len(subjects)]` raises `ZeroDivisionError` when the
subject list is empty: `i % 0 = i` in Lean and `[][i]? = none`, so the result
is `none` exactly when the effective subject list is empty. -/
def suggest_subject (slotTime : Nat) (prefs : UserPreferences) : Option String :=
  let subjects := prefs.subjects.getD ["General Study", "Math", "Science", "Literature"]
  let dayIndex := weekday slotTime
  subjects[dayIndex % subjects.length]?

/-- One recommendation dict of `find_optimal_study_times`
(calendar_integration.py lines 233-239). -/
structure Slot where
  start_time : Nat
  end_time : Nat
  duration_minutes : Nat
  confidence_score : ℚ
  subject : String
deriving DecidableEq, Repr

/-- The conflict test of calendar_integration.py lines 226-230:
`slot_start < busy_end and slot_end > busy_start` for some busy interval. -/
def overlapsBusy (slotStart slotEnd : Nat) (busyTimes : List (Nat × Nat)) : Bool :=
  busyTimes.any fun b => decide (slotStart < b.2) && decide (slotEnd > b.1)

/-- The inner `for hour in preferred_hours` loop of `find_optimal_study_times`
(calendar_integration.py lines 221-239), for one preferred day `currentDate`.
`none` = an iteration raised (invalid hour in `datetime.replace`, or
`ZeroDivisionError` in `_suggest_subject`). -/
def slotsForHours (busyTimes : List (Nat × Nat)) (prefs : UserPreferences)
    (currentDate dur : Nat) : List Nat → Option (List Slot)
  | [] => some []
  | h :: hs =>
    match replaceHour currentDate h with
    | none => none
    | some slotStart =>
      let slotEnd := slotStart + dur
      if overlapsBusy slotStart slotEnd busyTimes then
        slotsForHours busyTimes prefs currentDate dur hs
      else
        match suggest_subject slotStart prefs, slotsForHours busyTimes prefs currentDate dur hs with
        | some subj, some rest =>
          some ({ start_time := slotStart
                  end_time := slotEnd
                  duration_minutes := dur
                  confidence_score := calculate_confidence_score slotStart prefs
                  subject := subj } :: rest)
        | _, _ => none

/-- The outer `for day_offset in range(days_ahead)` loop of
`find_optimal_study_times` (calendar_integration.py lines 214-239):
non-preferred weekdays are skipped entirely. -/
def slotsForDays (now : Nat) (busyTimes : List (Nat × Nat)) (prefs : UserPreferences)
    (dur : Nat) : List Nat → Option (List Slot)
  | [] => some []
  | d :: ds =>
    let currentDate := now + d * 1440
    if weekday currentDate ∈ preferredDaysOf prefs then
      match slotsForHours busyTimes prefs currentDate dur (preferredHoursOf prefs),
            slotsForDays now busyTimes prefs dur ds with
      | some slots, some rest => some (slots ++ rest)
      | _, _ => none
    else slotsForDays now busyTimes prefs dur ds

/-- Stable insertion (descending by `confidence_score`): an element is placed
after every already-placed element of greater-or-equal score. -/
def insertDesc (s : Slot) : List Slot → List Slot
  | [] => [s]
  | t :: ts =>
    if t.confidence_score ≤ s.confidence_score then s :: t :: ts
    else t :: insertDesc s ts

/-- `available_slots.sort(key=lambda x: x["confidence_score"], reverse=True)`
(calendar_integration.py line 242).  The Python list sort is stable; a stable
sort under a total preorder has a unique result, realised here by stable
insertion sort (structurally recursive so that it evaluates in the kernel). -/
def sortByScoreDesc : List Slot → List Slot
  | [] => []
  | s :: rest => insertDesc s (sortByScoreDesc rest)

/-- `SmartScheduler.find_optimal_study_times` (calendar_integration.py
lines 181-243).  `now` is `datetime.now()`; `busyTimes` is the busy list the
source builds on lines 198-205 from the aggregated events (the aggregation
itself is `get_all_events` below).  In the source `studyDuration` defaults to
120 and `daysAhead` to 7.  `none` = the call raises. -/
def find_optimal_study_times (now : Nat) (prefs : UserPreferences)
    (studyDuration daysAhead : Nat) (busyTimes : List (Nat × Nat)) : Option (List Slot) :=
  match slotsForDays now busyTimes prefs studyDuration (List.range daysAhead) with
  | none => none
  | some availableSlots => some ((sortByScoreDesc availableSlots).take 10)

/-! ## Work-description planner (`SmartScheduler.suggest_study_sessions_from_work`)

String operations are implemented structurally over `data : List Char` so that
concrete instances evaluate in the kernel; they agree with the Python string
methods the source calls. -/

/-- Python `str.lower()` (ASCII case folding suffices for the keywords the source
tests). -/
def pyLower (s : String) : String := ⟨s.data.map Char.toLower⟩

/-- Python substring test `needle in hay`. -/
def containsSub (hay needle : String) : Bool :=
  (List.range (hay.data.length + 1)).any fun i => needle.data.isPrefixOf (hay.data.drop i)

/-- `any(word in work_lower for word in [...])`. -/
def anyKeyword (text : String) (keywords : List String) : Bool :=
  keywords.any fun w => containsSub text w

/-- The `study_type` / `duration` keyword chain of
`suggest_study_sessions_from_work` (calendar_integration.py lines 283-301):
first match wins, default `("General Study", 120)`. -/
def classify_study_type (workLower : String) : String × Nat :=
  if anyKeyword workLower ["pset", "problem set", "homework", "assignment"] then
    ("Problem Set", 180)
  else if anyKeyword workLower ["exam", "test", "midterm", "final"] then
    ("Exam Preparation", 240)
  else if anyKeyword workLower ["project", "paper", "essay", "report"] then
    ("Project Work", 200)
  else if anyKeyword workLower ["read", "reading", "textbook", "chapter"] then
    ("Reading & Notes", 90)
  else if anyKeyword workLower ["code", "programming", "debug", "algorithm"] then
    ("Coding Practice", 150)
  else ("General Study", 120)

/-- The `subject` keyword chain of `suggest_study_sessions_from_work`
(calendar_integration.py lines 303-314): first match wins, default
`"General"`. -/
def classify_subject (workLower : String) : String :=
  if anyKeyword workLower ["math", "calculus", "algebra", "statistics"] then "Mathematics"
  else if anyKeyword workLower ["physics", "chemistry", "biology", "science"] then "Science"
  else if anyKeyword workLower ["cs", "computer science", "programming", "code"] then "Computer Science"
  else if anyKeyword workLower ["english", "literature", "writing", "essay"] then "English/Literature"
  else if anyKeyword workLower ["history", "social studies", "politics"] then "History"
  else "General"

/-- One session dict of `suggest_study_sessions_from_work`
(calendar_integration.py lines 331-340 / 347-356). -/
structure StudySession where
  title : String
  description : String
  start_time : Nat
  end_time : Nat
  duration_minutes : Nat
  subject : String
  type : String
  confidence_score : ℚ
deriving DecidableEq, Repr

/-- The `for i in range(num_sessions)` loop building `sessions`; `none` = some
iteration raised. -/
def sessionsLoop (mk : Nat → Option StudySession) : List Nat → Option (List StudySession)
  | [] => some []
  | i :: is =>
    match mk i, sessionsLoop mk is with
    | some s, some rest => some (s :: rest)
    | _, _ => none

/-- `SmartScheduler.suggest_study_sessions_from_work` (calendar_integration.py
lines 278-358).  `now` is `datetime.now()`.  `none` = the call raises
(`ZeroDivisionError`/`IndexError` on an empty `preferred_hours`, `ValueError`
from `datetime.replace` on an hour outside 0..23). -/
def suggest_study_sessions_from_work (now : Nat) (workDescription : String)
    (prefs : UserPreferences) : Option (List StudySession) :=
  let workLower := pyLower workDescription
  let res := classify_study_type workLower
  let studyType := res.1
  let duration := res.2
  let subject := classify_subject workLower
  let preferredHours := preferredHoursOf prefs
  if 180 < duration then
    let sessionDuration := 120
    let numSessions := max 2 (duration / sessionDuration)
    sessionsLoop
      (fun i =>
        match preferredHours[i % preferredHours.length]? with
        | none => none
        | some hour =>
          match replaceHour now hour with
          | none => none
          | some base =>
            let startTime := base + i * 1440
            let endTime := startTime + sessionDuration
            some { title := studyType ++ " - " ++ subject ++ " (Part " ++ toString (i + 1) ++ ")"
                   description := "Study session for: " ++ workDescription
                   start_time := startTime
                   end_time := endTime
                   duration_minutes := sessionDuration
                   subject := subject
                   type := studyType
                   confidence_score := 8 / 10 })
      (List.range numSessions)
  else
    match preferredHours[0]? with
    | none => none
    | some hour =>
      match replaceHour now hour with
      | none => none
      | some startTime =>
        let endTime := startTime + duration
        some [{ title := studyType ++ " - " ++ subject
                description := "Study session for: " ++ workDescription
                start_time := startTime
                end_time := endTime
                duration_minutes := duration
                subject := subject
                type := studyType
                confidence_score := 9 / 10 }]

/-! ## Calendar aggregation (`CalendarIntegration`) -/

/-- Python `str.strip()`: whitespace removed from both ends. -/
def pyStrip (s : String) : String :=
  ⟨((s.data.dropWhile Char.isWhitespace).reverse.dropWhile Char.isWhitespace).reverse⟩

/-- Python `str.startswith(p)`. -/
def pyStartsWith (s p : String) : Bool := p.data.isPrefixOf s.data

/-- Python slicing `s[n:]` (by characters). -/
def pyDropChars (s : String) (n : Nat) : String := ⟨s.data.drop n⟩

/-- Python `str.split` on the newline character. -/
def splitLines (cs : List Char) : List (List Char) :=
  match cs with
  | [] => [[]]
  | c :: rest =>
    match splitLines rest with
    | r :: rs => if c = '\n' then [] :: r :: rs else (c :: r) :: rs
    | [] => if c = '\n' then [[], []] else [[c]]

/-- `s.replace("Z", "+00:00")`: the target the source passes is the single
character "Z", so `str.replace` substitutes every occurrence of it. -/
def zReplace (s : String) : String :=
  ⟨(s.data.map fun c => if c = 'Z' then "+00:00".data else [c]).flatten⟩

/-- The event dict built by `CalendarIntegration.parse_ical_url`
(calendar_integration.py lines 82-99): keys are set only when the matching
line occurs (`none` = key absent); `source` is added during filtering. -/
structure ICalEvent where
  title : Option String
  start : Option String
  dtend : Option String
  description : Option String
  source : Option String
deriving DecidableEq, Repr

/-- `current_event = {}`. -/
def ICalEvent.empty : ICalEvent :=
  { title := none, start := none, dtend := none, description := none, source := none }

/-- Python dict truthiness `if current_event:`. -/
def ICalEvent.isEmptyDict (e : ICalEvent) : Bool :=
  e.title.isNone && e.start.isNone && e.dtend.isNone && e.description.isNone && e.source.isNone

/-- The line-scanning loop of `parse_ical_url` (calendar_integration.py
lines 84-99) over the split feed text, with the in-progress event `cur`;
events are emitted in feed order at each `END:VEVENT`. -/
def scanIcalLines (cur : ICalEvent) : List String → List ICalEvent
  | [] => []
  | rawLine :: rest =>
    let line := pyStrip rawLine
    if line = "BEGIN:VEVENT" then scanIcalLines ICalEvent.empty rest
    else if line = "END:VEVENT" then
      (if cur.isEmptyDict then [] else [cur]) ++ scanIcalLines ICalEvent.empty rest
    else if pyStartsWith line "SUMMARY:" then
      scanIcalLines { cur with title := some (pyDropChars line 8) } rest
    else if pyStartsWith line "DTSTART:" then
      scanIcalLines { cur with start := some (pyDropChars line 8) } rest
    else if pyStartsWith line "DTEND:" then
      scanIcalLines { cur with dtend := some (pyDropChars line 6) } rest
    else if pyStartsWith line "DESCRIPTION:" then
      scanIcalLines { cur with description := some (pyDropChars line 12) } rest
    else scanIcalLines cur rest

/-- `CalendarIntegration.parse_ical_url` (calendar_integration.py
lines 73-116).  `fetchText` models `requests.get(...).text` together with
`raise_for_status` (`Except.error` = any fetch exception); `parseDT` models
`datetime.fromisoformat` (`none` = it raises, caught by the inner
`try/except: continue`).  The outer `try/except` swallows every fetch failure
into an empty event list. -/
def parse_ical_url (fetchText : String → Except String String)
    (parseDT : String → Option Nat) (icalUrl : String)
    (startTime endTime : Nat) : List ICalEvent :=
  match fetchText icalUrl with
  | Except.error _ => []
  | Except.ok text =>
    let events := scanIcalLines ICalEvent.empty ((splitLines text.data).map fun cs => ⟨cs⟩)
    events.filterMap fun e =>
      match e.start with
      | none => none
      | some s =>
        match parseDT (zReplace s) with
        | none => none
        | some eventStart =>
          if startTime ≤ eventStart ∧ eventStart ≤ endTime then
            some { e with source := some "ical" }
          else none

/-- `CalendarIntegration.get_all_events` (calendar_integration.py
lines 162-175).  `googleEvents` is the list `get_google_events` produced for
the window (that method likewise swallows its own failures into `[]`). -/
def get_all_events (googleEvents : List ICalEvent)
    (fetchText : String → Except String String) (parseDT : String → Option Nat)
    (icalUrls : List String) (startTime endTime : Nat) : List ICalEvent :=
  googleEvents ++ (icalUrls.map fun url => parse_ical_url fetchText parseDT url startTime endTime).flatten

/-! ## Concrete preference dicts used by witnesses -/

/-- Preferences that explicitly supply an empty `subjects` list. -/
def emptySubjectsPrefs : UserPreferences := { emptyPrefs with subjects := some ([] : List String) }

/-- Preferences with `preferred_study_hours = [9, 14]`. -/
def hours914Prefs : UserPreferences := { emptyPrefs with preferred_study_hours := some [9, 14] }

/-! ## Invariants of the slot-generation loops -/

theorem replaceHour_eq_some {t h v : Nat} (hrep : replaceHour t h = some v) :
    h ≤ 23 ∧ v = t / 1440 * 1440 + h * 60 := by
  unfold replaceHour at hrep
  split at hrep
  · exact ⟨by assumption, (Option.some.injEq _ _ ▸ hrep).symm⟩
  · exact absurd hrep (by simp)

theorem overlapsBusy_eq_false {a b : Nat} {busy : List (Nat × Nat)}
    (h : overlapsBusy a b busy = false) :
    ∀ p ∈ busy, ¬ (a < p.2 ∧ b > p.1) := by
  intro p hp
  unfold overlapsBusy at h
  rw [List.any_eq_false] at h
  have := h p hp
  simp only [Bool.and_eq_true, decide_eq_true_eq] at this
  tauto

/-- Every slot produced by the inner hour loop records a preferred hour in
0..23, carries the start/end/score values of the loop, and passed the conflict
check. -/
theorem slotsForHours_mem {busy : List (Nat × Nat)} {prefs : UserPreferences} {cd dur : Nat} :
    ∀ {hs : List Nat} {L : List Slot},
      slotsForHours busy prefs cd dur hs = some L → ∀ s ∈ L,
        ∃ h, h ∈ hs ∧ h ≤ 23 ∧
          s.start_time = cd / 1440 * 1440 + h * 60 ∧
          s.end_time = s.start_time + dur ∧
          s.duration_minutes = dur ∧
          overlapsBusy s.start_time s.end_time busy = false ∧
          s.confidence_score = calculate_confidence_score s.start_time prefs := by
  intro hs
  induction hs with
  | nil =>
    intro L hL s hsin
    simp only [slotsForHours, Option.some.injEq] at hL
    subst hL
    simp at hsin
  | cons h hs ih =>
    intro L hL s hsin
    unfold slotsForHours at hL
    cases hrep : replaceHour cd h with
    | none => rw [hrep] at hL; simp at hL
    | some slotStart =>
      rw [hrep] at hL
      obtain ⟨hle, hstart⟩ := replaceHour_eq_some hrep
      subst hstart
      simp only at hL
      cases hb : overlapsBusy (cd / 1440 * 1440 + h * 60) (cd / 1440 * 1440 + h * 60 + dur) busy with
      | true =>
        rw [hb] at hL
        simp only [if_true] at hL
        obtain ⟨h', hmem, rest⟩ := ih hL s hsin
        exact ⟨h', List.mem_cons_of_mem _ hmem, rest⟩
      | false =>
        rw [hb] at hL
        simp only [Bool.false_eq_true, if_false] at hL
        cases hsubj : suggest_subject (cd / 1440 * 1440 + h * 60) prefs with
        | none => rw [hsubj] at hL; simp at hL
        | some subj =>
          rw [hsubj] at hL
          cases hrest : slotsForHours busy prefs cd dur hs with
          | none => rw [hrest] at hL; simp at hL
          | some rest =>
            rw [hrest] at hL
            simp only [Option.some.injEq] at hL
            subst hL
            rcases List.mem_cons.mp hsin with hEq | hTail
            · subst hEq
              exact ⟨h, List.mem_cons_self _ _, hle, rfl, rfl, rfl, hb, rfl⟩
            · obtain ⟨h', hmem, rest'⟩ := ih hrest s hTail
              exact ⟨h', List.mem_cons_of_mem _ hmem, rest'⟩

/-- Every slot produced by the day loop comes from a day offset in the list
whose weekday is preferred, via the hour loop. -/
theorem slotsForDays_mem {now : Nat} {busy : List (Nat × Nat)} {prefs : UserPreferences} {dur : Nat} :
    ∀ {ds : List Nat} {L : List Slot},
      slotsForDays now busy prefs dur ds = some L → ∀ s ∈ L,
        ∃ d, d ∈ ds ∧ weekday (now + d * 1440) ∈ preferredDaysOf prefs ∧
          ∃ h, h ∈ preferredHoursOf prefs ∧ h ≤ 23 ∧
            s.start_time = (now + d * 1440) / 1440 * 1440 + h * 60 ∧
            s.end_time = s.start_time + dur ∧
            s.duration_minutes = dur ∧
            overlapsBusy s.start_time s.end_time busy = false ∧
            s.confidence_score = calculate_confidence_score s.start_time prefs := by
  intro ds
  induction ds with
  | nil =>
    intro L hL s hsin
    simp only [slotsForDays, Option.some.injEq] at hL
    subst hL
    simp at hsin
  | cons d ds ih =>
    intro L hL s hsin
    unfold slotsForDays at hL
    by_cases hday : weekday (now + d * 1440) ∈ preferredDaysOf prefs
    · rw [if_pos hday] at hL
      cases hslots : slotsForHours busy prefs (now + d * 1440) dur (preferredHoursOf prefs) with
      | none => rw [hslots] at hL; simp at hL
      | some slots =>
        rw [hslots] at hL
        cases hrest : slotsForDays now busy prefs dur ds with
        | none => rw [hrest] at hL; simp at hL
        | some rest =>
          rw [hrest] at hL
          simp only [Option.some.injEq] at hL
          subst hL
          rcases List.mem_append.mp hsin with hHere | hThere
          · obtain ⟨h, hmem, hle, hfacts⟩ := slotsForHours_mem hslots s hHere
            exact ⟨d, List.mem_cons_self _ _, hday, h, hmem, hle, hfacts⟩
          · obtain ⟨d', hd', rest'⟩ := ih hrest s hThere
            exact ⟨d', List.mem_cons_of_mem _ hd', rest'⟩
    · rw [if_neg hday] at hL
      obtain ⟨d', hd', rest'⟩ := ih hL s hsin
      exact ⟨d', List.mem_cons_of_mem _ hd', rest'⟩

theorem mem_insertDesc {a s : Slot} {l : List Slot} :
    a ∈ insertDesc s l ↔ a = s ∨ a ∈ l := by
  induction l with
  | nil => simp [insertDesc]
  | cons t ts ih =>
    unfold insertDesc
    by_cases hc : t.confidence_score ≤ s.confidence_score
    · simp [if_pos hc]
    · simp only [if_neg hc, List.mem_cons, ih]
      tauto

theorem mem_sortByScoreDesc {a : Slot} {l : List Slot} :
    a ∈ sortByScoreDesc l ↔ a ∈ l := by
  induction l with
  | nil => simp [sortByScoreDesc]
  | cons s rest ih => simp [sortByScoreDesc, mem_insertDesc, ih]

/-- Characterisation of the slots `find_optimal_study_times` returns: each one
is generated on a preferred weekday within the horizon, at a preferred hour,
free of conflicts, and scored by `_calculate_confidence_score`. -/
theorem find_optimal_mem {now : Nat} {prefs : UserPreferences} {dur daysAhead : Nat}
    {busy : List (Nat × Nat)} {slots : List Slot}
    (hfind : find_optimal_study_times now prefs dur daysAhead busy = some slots) :
    ∀ s ∈ slots,
      ∃ d, d < daysAhead ∧ weekday (now + d * 1440) ∈ preferredDaysOf prefs ∧
        ∃ h, h ∈ preferredHoursOf prefs ∧ h ≤ 23 ∧
          s.start_time = (now + d * 1440) / 1440 * 1440 + h * 60 ∧
          s.end_time = s.start_time + dur ∧
          s.duration_minutes = dur ∧
          overlapsBusy s.start_time s.end_time busy = false ∧
          s.confidence_score = calculate_confidence_score s.start_time prefs := by
  intro s hsin
  unfold find_optimal_study_times at hfind
  cases hdays : slotsForDays now busy prefs dur (List.range daysAhead) with
  | none => rw [hdays] at hfind; simp at hfind
  | some available =>
    rw [hdays] at hfind
    simp only [Option.some.injEq] at hfind
    subst hfind
    have hmem : s ∈ available :=
      mem_sortByScoreDesc.mp (List.take_subset _ _ hsin)
    obtain ⟨d, hd, rest⟩ := slotsForDays_mem hdays s hmem
    exact ⟨d, List.mem_range.mp hd, rest⟩

/-! ## Claim C1 -/

/-- C1: every slot returned by `find_optimal_study_times` is free of conflicts:
for every busy interval `(busy_start, busy_end)` it is not the case that
`slot.start < busy_end ∧ slot.end > busy_start`; an overlapping candidate is
discarded entirely and never appears in the result. -/
theorem returned_slots_never_conflict (now : Nat) (prefs : UserPreferences)
    (dur daysAhead : Nat) (busy : List (Nat × Nat)) (slots : List Slot)
    (hfind : find_optimal_study_times now prefs dur daysAhead busy = some slots) :
    ∀ s ∈ slots, ∀ b ∈ busy, ¬ (s.start_time < b.2 ∧ s.end_time > b.1) := by
  intro s hs b hb
  obtain ⟨d, hd, hday, h, hmem, hle, hstart, hend, hdurm, hover, hscore⟩ :=
    find_optimal_mem hfind s hs
  exact overlapsBusy_eq_false hover b hb

unseal Rat.inv Rat.mul Rat.add in
theorem returned_slots_never_conflict_witness :
    ¬ ((540 : Nat) < 480 ∧ (660 : Nat) > 0) :=
  returned_slots_never_conflict 0 emptyPrefs 120 1 [(0, 480)]
    [⟨540, 660, 120, 1, "Literature"⟩, ⟨840, 960, 120, 4 / 5, "Literature"⟩,
     ⟨1140, 1260, 120, 7 / 10, "Literature"⟩]
    (by decide) ⟨540, 660, 120, 1, "Literature"⟩ (by decide) (0, 480) (by decide)

/-! ## Claim C2 -/

unseal Rat.inv Rat.mul Rat.add in
/-- C2 counterexample: called late in the day (23:00, minute 1380 of day 0, a
preferred Thursday), `find_optimal_study_times` returns slots starting at
09:00, 14:00 and 19:00 of that same day — minute 540 is before `now = 1380`,
so the start of a returned slot can lie outside `[now, now + days_ahead days)`. -/
theorem find_optimal_window_counterexample :
    find_optimal_study_times 1380 emptyPrefs 120 1 [] =
      some [⟨540, 660, 120, 1, "Literature"⟩, ⟨840, 960, 120, 4 / 5, "Literature"⟩,
            ⟨1140, 1260, 120, 7 / 10, "Literature"⟩] ∧
    ¬ ((1380 : Nat) ≤ 540) := by
  refine ⟨by decide, by decide⟩

/-- C2 amended: `find_optimal_study_times` returns at most 10 slots, and every
returned slot starts within `[midnight of the current day, now + days_ahead
days)` — the upper bound of the claim holds, but the lower bound is midnight
of the call day, not `now` itself, because day offset 0 generates slots at
preferred hours that may already have passed. -/
theorem find_optimal_bounded (now : Nat) (prefs : UserPreferences)
    (dur daysAhead : Nat) (busy : List (Nat × Nat)) (slots : List Slot)
    (hfind : find_optimal_study_times now prefs dur daysAhead busy = some slots) :
    slots.length ≤ 10 ∧
      ∀ s ∈ slots, now / 1440 * 1440 ≤ s.start_time ∧ s.start_time < now + daysAhead * 1440 := by
  constructor
  · unfold find_optimal_study_times at hfind
    cases hdays : slotsForDays now busy prefs dur (List.range daysAhead) with
    | none => rw [hdays] at hfind; simp at hfind
    | some available =>
      rw [hdays] at hfind
      simp only [Option.some.injEq] at hfind
      subst hfind
      simp [List.length_take_le 10]
  · intro s hs
    obtain ⟨d, hd, hday, h, hmem, hle, hstart, hrest⟩ := find_optimal_mem hfind s hs
    rw [hstart]
    omega

unseal Rat.inv Rat.mul Rat.add in
theorem find_optimal_bounded_witness :
    (([⟨540, 660, 120, 1, "Literature"⟩, ⟨840, 960, 120, 4 / 5, "Literature"⟩,
       ⟨1140, 1260, 120, 7 / 10, "Literature"⟩] : List Slot).length ≤ 10) ∧
    ((0 : Nat) / 1440 * 1440 ≤ 540 ∧ (540 : Nat) < 0 + 1 * 1440) :=
  ⟨(find_optimal_bounded 0 emptyPrefs 120 1 []
      [⟨540, 660, 120, 1, "Literature"⟩, ⟨840, 960, 120, 4 / 5, "Literature"⟩,
       ⟨1140, 1260, 120, 7 / 10, "Literature"⟩] (by decide)).1,
   (find_optimal_bounded 0 emptyPrefs 120 1 []
      [⟨540, 660, 120, 1, "Literature"⟩, ⟨840, 960, 120, 4 / 5, "Literature"⟩,
       ⟨1140, 1260, 120, 7 / 10, "Literature"⟩] (by decide)).2
     ⟨540, 660, 120, 1, "Literature"⟩ (by decide)⟩

/-! ## Claim C6 -/

/-- On a preferred weekday the `+0.2` day bonus always fires, so the score
collapses to `min (bucket_weight + 0.2) 1`. -/
theorem calculate_confidence_score_eq {t : Nat} {prefs : UserPreferences}
    (hday : weekday t ∈ preferredDaysOf prefs) :
    calculate_confidence_score t prefs = min (bucketWeight prefs (hourOf t) + 2 / 10) 1 := by
  simp [calculate_confidence_score, if_pos hday]

/-- The bucket weight is always one of the four effective time-of-day
weights. -/
theorem bucketWeight_mem_weights (prefs : UserPreferences) (h : Nat) :
    bucketWeight prefs h ∈
      [prefs.morning_preference.getD (8 / 10), prefs.midday_preference.getD (6 / 10),
       prefs.afternoon_preference.getD (7 / 10), prefs.evening_preference.getD (5 / 10)] := by
  unfold bucketWeight
  split
  · simp
  · split
    · simp
    · split <;> simp

/-- A generated slot start keeps the weekday of its day: the hour is at most 23,
so setting it stays inside the same calendar day. -/
theorem weekday_start {cd h : Nat} (hle : h ≤ 23) :
    weekday (cd / 1440 * 1440 + h * 60) = weekday cd := by
  unfold weekday
  omega

/-- C6: the confidence score of every returned slot equals
`min (bucket_weight + 0.2) 1` for the hour bucket of the slot (the `+0.2`
preferred-day bonus fires on every surviving slot because non-preferred days
were pre-filtered), and whenever the four effective time-of-day weights lie
in `[0, 1]` every returned score lies in `[0, 1]`. -/
theorem find_optimal_score_formula (now : Nat) (prefs : UserPreferences)
    (dur daysAhead : Nat) (busy : List (Nat × Nat)) (slots : List Slot)
    (hfind : find_optimal_study_times now prefs dur daysAhead busy = some slots) :
    (∀ s ∈ slots,
      s.confidence_score = min (bucketWeight prefs (hourOf s.start_time) + 2 / 10) 1) ∧
    ((∀ w ∈ [prefs.morning_preference.getD (8 / 10), prefs.midday_preference.getD (6 / 10),
             prefs.afternoon_preference.getD (7 / 10), prefs.evening_preference.getD (5 / 10)],
        0 ≤ w ∧ w ≤ 1) →
      ∀ s ∈ slots, 0 ≤ s.confidence_score ∧ s.confidence_score ≤ 1) := by
  have hformula : ∀ s ∈ slots,
      s.confidence_score = min (bucketWeight prefs (hourOf s.start_time) + 2 / 10) 1 := by
    intro s hs
    obtain ⟨d, hd, hday, h, hmem, hle, hstart, hend, hdurm, hover, hscore⟩ :=
      find_optimal_mem hfind s hs
    rw [hscore, calculate_confidence_score_eq]
    rw [hstart, weekday_start hle]
    exact hday
  refine ⟨hformula, fun hw s hs => ?_⟩
  rw [hformula s hs]
  obtain ⟨hw0, hw1⟩ := hw _ (bucketWeight_mem_weights prefs (hourOf s.start_time))
  constructor
  · refine le_min (by linarith) (by norm_num)
  · exact min_le_right _ _

unseal Rat.inv Rat.mul Rat.add in
theorem find_optimal_score_formula_witness :
    ((1 : ℚ) = min (bucketWeight emptyPrefs (hourOf 540) + 2 / 10) 1) ∧
    ((0 : ℚ) ≤ 1 ∧ (1 : ℚ) ≤ 1) :=
  ⟨(find_optimal_score_formula 0 emptyPrefs 120 1 []
      [⟨540, 660, 120, 1, "Literature"⟩, ⟨840, 960, 120, 4 / 5, "Literature"⟩,
       ⟨1140, 1260, 120, 7 / 10, "Literature"⟩] (by decide)).1
     ⟨540, 660, 120, 1, "Literature"⟩ (by decide),
   (find_optimal_score_formula 0 emptyPrefs 120 1 []
      [⟨540, 660, 120, 1, "Literature"⟩, ⟨840, 960, 120, 4 / 5, "Literature"⟩,
       ⟨1140, 1260, 120, 7 / 10, "Literature"⟩] (by decide)).2
     (by decide) ⟨540, 660, 120, 1, "Literature"⟩ (by decide)⟩

/-! ## Claim C10 -/

/-- With an explicitly supplied empty `subjects` list, `_suggest_subject`
raises (`day_index % 0` is a `ZeroDivisionError`). -/
theorem suggest_subject_empty {t : Nat} {prefs : UserPreferences}
    (hsub : prefs.subjects = some []) : suggest_subject t prefs = none := by
  simp [suggest_subject, hsub]

/-- If some hour in the list yields a valid, conflict-free slot and the
subject list is empty, the hour loop raises. -/
theorem slotsForHours_none {busy : List (Nat × Nat)} {prefs : UserPreferences}
    {cd dur : Nat} (hsub : prefs.subjects = some []) :
    ∀ {hs : List Nat}, (∃ h ∈ hs, h ≤ 23 ∧
        overlapsBusy (cd / 1440 * 1440 + h * 60) (cd / 1440 * 1440 + h * 60 + dur) busy = false) →
      slotsForHours busy prefs cd dur hs = none := by
  intro hs
  induction hs with
  | nil => rintro ⟨h, hmem, _⟩; simp at hmem
  | cons h' hs ih =>
    rintro ⟨h, hmem, hle, hfree⟩
    unfold slotsForHours
    cases hrep : replaceHour cd h' with
    | none => rfl
    | some slotStart =>
      obtain ⟨hle', hstart⟩ := replaceHour_eq_some hrep
      subst hstart
      simp only
      cases hb : overlapsBusy (cd / 1440 * 1440 + h' * 60) (cd / 1440 * 1440 + h' * 60 + dur) busy with
      | true =>
        simp only [if_true]
        rcases List.mem_cons.mp hmem with hEq | hTail
        · subst hEq
          rw [hfree] at hb
          exact absurd hb (by simp)
        · exact ih ⟨h, hTail, hle, hfree⟩
      | false =>
        simp only [Bool.false_eq_true, if_false]
        rw [suggest_subject_empty hsub]

/-- If some day in the list is preferred and has a valid, conflict-free
preferred hour, the day loop raises when the subject list is empty. -/
theorem slotsForDays_none {now : Nat} {busy : List (Nat × Nat)} {prefs : UserPreferences}
    {dur : Nat} (hsub : prefs.subjects = some []) :
    ∀ {ds : List Nat}, (∃ d ∈ ds, weekday (now + d * 1440) ∈ preferredDaysOf prefs ∧
        ∃ h ∈ preferredHoursOf prefs, h ≤ 23 ∧
          overlapsBusy ((now + d * 1440) / 1440 * 1440 + h * 60)
            ((now + d * 1440) / 1440 * 1440 + h * 60 + dur) busy = false) →
      slotsForDays now busy prefs dur ds = none := by
  intro ds
  induction ds with
  | nil => rintro ⟨d, hmem, _⟩; simp at hmem
  | cons d' ds ih =>
    rintro ⟨d, hmem, hday, h, hh, hle, hfree⟩
    unfold slotsForDays
    by_cases hday' : weekday (now + d' * 1440) ∈ preferredDaysOf prefs
    · rw [if_pos hday']
      rcases List.mem_cons.mp hmem with hEq | hTail
      · subst hEq
        rw [slotsForHours_none hsub ⟨h, hh, hle, hfree⟩]
      · rw [ih ⟨d, hTail, hday, h, hh, hle, hfree⟩]
        cases slotsForHours busy prefs (now + d' * 1440) dur (preferredHoursOf prefs) <;> rfl
    · rw [if_neg hday']
      rcases List.mem_cons.mp hmem with hEq | hTail
      · subst hEq; exact absurd hday hday'
      · exact ih ⟨d, hTail, hday, h, hh, hle, hfree⟩

/-- C10: if the caller supplies `subjects = []` and at least one candidate
slot survives conflict filtering (a preferred weekday within the horizon with
a valid preferred hour and no busy overlap), then `_suggest_subject` divides
by the zero list length and `find_optimal_study_times` raises instead of
returning a list. -/
theorem find_optimal_empty_subjects_raises (now : Nat) (prefs : UserPreferences)
    (dur daysAhead : Nat) (busy : List (Nat × Nat))
    (hsub : prefs.subjects = some [])
    (d : Nat) (hd : d < daysAhead)
    (hday : weekday (now + d * 1440) ∈ preferredDaysOf prefs)
    (h : Nat) (hmem : h ∈ preferredHoursOf prefs) (hle : h ≤ 23)
    (hfree : overlapsBusy ((now + d * 1440) / 1440 * 1440 + h * 60)
      ((now + d * 1440) / 1440 * 1440 + h * 60 + dur) busy = false) :
    find_optimal_study_times now prefs dur daysAhead busy = none := by
  unfold find_optimal_study_times
  rw [slotsForDays_none hsub ⟨d, List.mem_range.mpr hd, hday, h, hmem, hle, hfree⟩]

theorem find_optimal_empty_subjects_raises_witness :
    find_optimal_study_times 0 emptySubjectsPrefs 120 1 [] = none :=
  find_optimal_empty_subjects_raises 0 emptySubjectsPrefs 120 1 [] rfl
    0 (by decide) (by decide) 9 (by decide) (by decide) rfl

/-! ## Claim C5 -/

/-- If every iteration of the session-building loop succeeds with the value of
`g`, the loop returns the mapped list. -/
theorem sessionsLoop_map {mk : Nat → Option StudySession} {g : Nat → StudySession} :
    ∀ {l : List Nat}, (∀ i ∈ l, mk i = some (g i)) → sessionsLoop mk l = some (l.map g) := by
  intro l
  induction l with
  | nil => intro _; rfl
  | cons i is ih =>
    intro hall
    unfold sessionsLoop
    rw [hall i (List.mem_cons_self _ _), ih fun j hj => hall j (List.mem_cons_of_mem _ hj)]
    rfl

/-- C5: when the classified duration exceeds 180 minutes and the preferred
hours are a non-empty list of valid hours, the planner returns exactly
`max 2 (duration / 120)` sessions; session `i` lasts 120 minutes, starts at
hour `preferred_hours[i % len]` on day `today + i` (minute/second zeroed), is
titled `"{type} - {subject} (Part {i+1})"`, and is scored 0.8. -/
theorem suggest_sessions_split (now : Nat) (desc : String) (prefs : UserPreferences)
    (hdur : 180 < (classify_study_type (pyLower desc)).2)
    (hne : preferredHoursOf prefs ≠ [])
    (hvalid : ∀ h ∈ preferredHoursOf prefs, h ≤ 23) :
    ∃ L, suggest_study_sessions_from_work now desc prefs = some L ∧
      L.length = max 2 ((classify_study_type (pyLower desc)).2 / 120) ∧
      ∀ i, ∀ hi : i < L.length,
        ∃ h, (preferredHoursOf prefs)[i % (preferredHoursOf prefs).length]? = some h ∧
          L.get ⟨i, hi⟩ =
            { title := (classify_study_type (pyLower desc)).1 ++ " - " ++
                classify_subject (pyLower desc) ++ " (Part " ++ toString (i + 1) ++ ")"
              description := "Study session for: " ++ desc
              start_time := now / 1440 * 1440 + h * 60 + i * 1440
              end_time := now / 1440 * 1440 + h * 60 + i * 1440 + 120
              duration_minutes := 120
              subject := classify_subject (pyLower desc)
              type := (classify_study_type (pyLower desc)).1
              confidence_score := 8 / 10 } := by
  have hlen : 0 < (preferredHoursOf prefs).length := List.length_pos.mpr hne
  have hidx : ∀ i : Nat,
      (preferredHoursOf prefs)[i % (preferredHoursOf prefs).length]? =
        some ((preferredHoursOf prefs).get ⟨i % (preferredHoursOf prefs).length, Nat.mod_lt _ hlen⟩) := by
    intro i
    rw [List.getElem?_eq_getElem (Nat.mod_lt _ hlen)]
    rfl
  have hrep : ∀ i : Nat,
      replaceHour now ((preferredHoursOf prefs).get ⟨i % (preferredHoursOf prefs).length, Nat.mod_lt _ hlen⟩) =
        some (now / 1440 * 1440 +
          (preferredHoursOf prefs).get ⟨i % (preferredHoursOf prefs).length, Nat.mod_lt _ hlen⟩ * 60) := by
    intro i
    unfold replaceHour
    rw [if_pos (hvalid _ (List.get_mem _ _ _))]
  refine ⟨(List.range (max 2 ((classify_study_type (pyLower desc)).2 / 120))).map fun i =>
    { title := (classify_study_type (pyLower desc)).1 ++ " - " ++
        classify_subject (pyLower desc) ++ " (Part " ++ toString (i + 1) ++ ")"
      description := "Study session for: " ++ desc
      start_time := now / 1440 * 1440 +
        (preferredHoursOf prefs).get ⟨i % (preferredHoursOf prefs).length, Nat.mod_lt _ hlen⟩ * 60 + i * 1440
      end_time := now / 1440 * 1440 +
        (preferredHoursOf prefs).get ⟨i % (preferredHoursOf prefs).length, Nat.mod_lt _ hlen⟩ * 60 + i * 1440 + 120
      duration_minutes := 120
      subject := classify_subject (pyLower desc)
      type := (classify_study_type (pyLower desc)).1
      confidence_score := 8 / 10 }, ?_, by simp, ?_⟩
  · simp only [suggest_study_sessions_from_work]
    rw [if_pos hdur]
    refine sessionsLoop_map ?_
    intro i _
    simp only [hidx i, hrep i]
  · intro i hi
    refine ⟨(preferredHoursOf prefs).get ⟨i % (preferredHoursOf prefs).length, Nat.mod_lt _ hlen⟩,
      hidx i, ?_⟩
    have hi' : i < max 2 ((classify_study_type (pyLower desc)).2 / 120) := by
      simpa using hi
    simp [List.get_eq_getElem, List.getElem_map, List.getElem_range]

unseal Rat.inv Rat.mul Rat.add in
theorem suggest_sessions_split_witness :
    (180 < (classify_study_type (pyLower "exam")).2) ∧
    suggest_study_sessions_from_work 600 "exam" hours914Prefs ≠ none ∧
    suggest_study_sessions_from_work 600 "exam" hours914Prefs =
      some [⟨"Exam Preparation - General (Part 1)", "Study session for: exam",
             540, 660, 120, "General", "Exam Preparation", 8 / 10⟩,
            ⟨"Exam Preparation - General (Part 2)", "Study session for: exam",
             2280, 2400, 120, "General", "Exam Preparation", 8 / 10⟩] := by
  refine ⟨by decide, ?_, by decide⟩
  obtain ⟨L, hL, -, -⟩ :=
    suggest_sessions_split 600 "exam" hours914Prefs (by decide) (by decide) (by decide)
  simp [hL]

/-! ## Claim C9 -/

/-- C9: classification is first-match-wins over the ordered keyword rules; for
`"I need to finish my pset on calculus"` the `pset` keyword fires the
Problem-Set rule (180 minutes), `calculus` fires Mathematics, and since 180 is
not `> 180` the planner returns exactly one session of duration 180 starting
at `preferred_hours[0]` today, scored 0.9. -/
theorem suggest_sessions_pset (now : Nat) (prefs : UserPreferences) (h0 : Nat)
    (hh : (preferredHoursOf prefs)[0]? = some h0) (hv : h0 ≤ 23) :
    classify_study_type (pyLower "I need to finish my pset on calculus") = ("Problem Set", 180) ∧
    classify_subject (pyLower "I need to finish my pset on calculus") = "Mathematics" ∧
    suggest_study_sessions_from_work now "I need to finish my pset on calculus" prefs =
      some [{ title := "Problem Set - Mathematics"
              description := "Study session for: I need to finish my pset on calculus"
              start_time := now / 1440 * 1440 + h0 * 60
              end_time := now / 1440 * 1440 + h0 * 60 + 180
              duration_minutes := 180
              subject := "Mathematics"
              type := "Problem Set"
              confidence_score := 9 / 10 }] := by
  have hct : classify_study_type (pyLower "I need to finish my pset on calculus") =
      ("Problem Set", 180) := by decide
  have hcs : classify_subject (pyLower "I need to finish my pset on calculus") =
      "Mathematics" := by decide
  refine ⟨hct, hcs, ?_⟩
  simp only [suggest_study_sessions_from_work, hct, hcs]
  rw [if_neg (by norm_num)]
  simp only [hh]
  unfold replaceHour
  rw [if_pos hv]
  rfl

theorem suggest_sessions_pset_witness :
    suggest_study_sessions_from_work 0 "I need to finish my pset on calculus" emptyPrefs =
      some [{ title := "Problem Set - Mathematics"
              description := "Study session for: I need to finish my pset on calculus"
              start_time := 540
              end_time := 720
              duration_minutes := 180
              subject := "Mathematics"
              type := "Problem Set"
              confidence_score := 9 / 10 }] :=
  (suggest_sessions_pset 0 emptyPrefs 9 (by decide) (by decide)).2.2

/-! ## Claim C7 -/

/-- C7: a failing fetch for one subscription feed is swallowed inside
`parse_ical_url` (empty contribution) and leaves the remote-calendar events
and the events of every other feed unchanged in `get_all_events`; no single-source
failure propagates to the caller (the aggregation is total by construction). -/
theorem get_all_events_degrades (googleEvents : List ICalEvent)
    (fetchText : String → Except String String) (parseDT : String → Option Nat)
    (us1 us2 : List String) (u : String) (startTime endTime : Nat) (err : String)
    (hfail : fetchText u = Except.error err) :
    parse_ical_url fetchText parseDT u startTime endTime = [] ∧
    get_all_events googleEvents fetchText parseDT (us1 ++ u :: us2) startTime endTime =
      get_all_events googleEvents fetchText parseDT (us1 ++ us2) startTime endTime := by
  have hempty : parse_ical_url fetchText parseDT u startTime endTime = [] := by
    unfold parse_ical_url
    rw [hfail]
  refine ⟨hempty, ?_⟩
  unfold get_all_events
  simp [hempty]

theorem get_all_events_degrades_witness :
    parse_ical_url (fun _ => Except.error "network error") (fun _ => none)
      "https://b.example/cal.ics" 0 10080 = [] ∧
    get_all_events [] (fun _ => Except.error "network error") (fun _ => none)
      (["https://a.example/cal.ics"] ++ "https://b.example/cal.ics" :: []) 0 10080 =
    get_all_events [] (fun _ => Except.error "network error") (fun _ => none)
      (["https://a.example/cal.ics"] ++ []) 0 10080 :=
  get_all_events_degrades [] (fun _ => Except.error "network error") (fun _ => none)
    ["https://a.example/cal.ics"] [] "https://b.example/cal.ics" 0 10080 "network error" rfl

/-! ## Claim C3 -/

/-- C3 counterexample: for the incomplete session `(date 2, completed false)`
with tracked previous date `0` (which differs from 2), the claim predicts the
previous-date tracker is updated to `2`; the loop body in the code leaves it at
`0`, because `last_date` is assigned only inside the `if session[1]` branch. -/
theorem habit_incomplete_counterexample :
    ¬ ((habitStep (1, some 0) (2, false)).2 = some 2) := by decide

/-- C3 amended: a session with `completed = false` leaves both the running
streak counter and the previous-date tracker unchanged (regardless of whether
its date differs from the tracked date); consequently removing an incomplete
session from the log does not change the computed progress. -/
theorem habit_incomplete_inert :
    (∀ streak : Nat, ∀ lastDate : Option Nat, ∀ date : Nat,
      habitStep (streak, lastDate) (date, false) = (streak, lastDate)) ∧
    track_habit_progress [(0, true), (2, false), (3, true)] =
      track_habit_progress [(0, true), (3, true)] := by
  exact ⟨fun streak lastDate date => rfl, rfl⟩

/-! ## Claim C4 -/

/-- C4: the empty session log takes the early return whose dict has only five
keys — `milestone_reached` is absent — while any non-empty log includes all
six; feeding the empty-log result to `get_milestone_rewards` therefore raises
`KeyError`.  (The claim that all six HabitProgress fields are always present
matches the intent but fails on the empty log.) -/
theorem track_habit_empty_missing_milestone :
    (track_habit_progress []).milestone_reached = none ∧
    (track_habit_progress [(0, true)]).milestone_reached = some false ∧
    get_milestone_rewards (track_habit_progress []) = none := by
  exact ⟨rfl, rfl, rfl⟩

/-! ## Claim C8 -/

/-- C8: `get_milestone_rewards` is a pure function of the progress record:
each threshold that holds (streak ≥ 7, 21, 30; days completed ≥ 50; milestone
reached) contributes its fixed message, all firing messages appear in
ascending threshold order, and a progress with streak 21, fewer than 50
completed days and milestone not reached yields exactly the 7-day and 21-day
messages (not the 30-day one). -/
theorem milestone_rewards_thresholds (p : HabitProgress) :
    (∀ m : Bool, p.milestone_reached = some m →
      get_milestone_rewards p = some (
        (if 7 ≤ p.current_streak then [reward7] else []) ++
        (if 21 ≤ p.current_streak then [reward21] else []) ++
        (if 30 ≤ p.current_streak then [reward30] else []) ++
        (if 50 ≤ p.days_completed then [reward50] else []) ++
        (if m then [rewardHabit] else []))) ∧
    (p.current_streak = 21 → p.days_completed < 50 → p.milestone_reached = some false →
      get_milestone_rewards p = some [reward7, reward21]) := by
  constructor
  · intro m hm
    unfold get_milestone_rewards
    rw [hm]
    by_cases h7 : 7 ≤ p.current_streak <;> by_cases h21 : 21 ≤ p.current_streak <;>
      by_cases h30 : 30 ≤ p.current_streak <;> by_cases h50 : 50 ≤ p.days_completed <;>
      cases m <;> simp [h7, h21, h30, h50]
  · intro hs hd hm
    unfold get_milestone_rewards
    rw [hm, hs]
    have h50 : ¬ 50 ≤ p.days_completed := Nat.not_le.mpr hd
    norm_num [h50]

theorem milestone_rewards_thresholds_witness :
    get_milestone_rewards ⟨21, 49, 30, 21, true, some false⟩ = some [reward7, reward21] :=
  (milestone_rewards_thresholds ⟨21, 49, 30, 21, true, some false⟩).2 rfl (by decide) rfl
